import Mathlib

/-!
Verification of the `capabilities` Go library: a shallow embedding of the
ABI decoder (`internal` package, `CapabilityV1` / `CapabilityV3` bit-test
predicates) and of the query facade (`Init`, `IsSet`, `isSetFor` in
`capabilities.go`), together with theorems settling the specification's
claims about it.

Machine integers are modelled as `Nat` with explicit `% 2^32` where Go's
`uint32` overflow semantics matter (a shift of a `uint32` by 32 or more
yields 0 in Go, which `(1 <<< n) % 2^32` reproduces), and Go's `int32`
conversion is modelled by explicit wrapping on `Int`.  The kernel's
`capget` syscall and the ambient `os.Getpid()` are modelled as an explicit
oracle (`Kernel`) passed to the functions that invoke them; the oracle is
keyed by the pid written into the request header, which is exactly the
information the real syscall receives.
-/

namespace Caps

/-- Go `int32(pid)` conversion: wrap an `Int` into `[-2^31, 2^31)`. -/
def toInt32 (x : Int) : Int := (x + 2 ^ 31) % 2 ^ 32 - 2 ^ 31

/-- Model of `unix.CapUserData`: three `uint32` words (effective, permitted,
inheritable), modelled as `Nat` values. -/
structure CapUserData where
  effective : Nat
  permitted : Nat
  inheritable : Nat
  deriving Repr, DecidableEq

/-- Model of `unix.CapUserHeader`: `{version : uint32, pid : int32}`. -/
structure CapUserHeader where
  version : Nat
  pid : Int
  deriving Repr, DecidableEq

/-- Go zero value of `unix.CapUserData`. -/
def CapUserData.zero : CapUserData := ⟨0, 0, 0⟩

/-- Go zero value of `unix.CapUserHeader`. -/
def CapUserHeader.zero : CapUserHeader := ⟨0, 0⟩

/-- Model of `internal.CapabilityV1`: header plus a single data record
(capability indices 0–31). -/
structure CapabilityV1 where
  header : CapUserHeader
  data : CapUserData
  deriving Repr, DecidableEq

/-- Model of `internal.CapabilityV3`: header, two data records (`Datap [2]`),
and two-word `Bounds` and `Ambient` arrays. -/
structure CapabilityV3 where
  header : CapUserHeader
  datap : CapUserData × CapUserData
  bounds : Nat × Nat
  ambient : Nat × Nat
  deriving Repr, DecidableEq

/-- Index a Go two-element array modelled as a pair (`x[i]` for `i ∈ {0,1}`). -/
def idx2 {α : Type} (a : α × α) (i : Nat) : α := if i = 0 then a.1 else a.2

/-- Embedding of `CapabilityV1.IsEffectiveSet`: `(1 << uint(capability)) & Data.Effective != 0`
on `uint32` (a shift by 32 or more yields 0). -/
def CapabilityV1.IsEffectiveSet (v1 : CapabilityV1) (capability : Nat) : Bool :=
  ((1 <<< capability) % 2 ^ 32) &&& v1.data.effective != 0

/-- Embedding of `CapabilityV1.IsPermittedSet`: same test against `Data.Permitted`. -/
def CapabilityV1.IsPermittedSet (v1 : CapabilityV1) (capability : Nat) : Bool :=
  ((1 <<< capability) % 2 ^ 32) &&& v1.data.permitted != 0

/-- Embedding of `CapabilityV1.IsInheritableSet`: same test against `Data.Inheritable`. -/
def CapabilityV1.IsInheritableSet (v1 : CapabilityV1) (capability : Nat) : Bool :=
  ((1 <<< capability) % 2 ^ 32) &&& v1.data.inheritable != 0

/-- The V3 word index: `i = 0`, set to `1` when `capability > 31`. -/
def v3WordIndex (capability : Nat) : Nat := if capability > 31 then 1 else 0

/-- The V3 bit index: `bitIndex = capability`, replaced by
`capability % 32` when `capability > 31`. -/
def v3BitIndex (capability : Nat) : Nat :=
  if capability > 31 then capability % 32 else capability

/-- Embedding of `CapabilityV3.IsEffectiveSet`:
`(1 << uint(bitIndex)) & Datap[i].Effective != 0`. -/
def CapabilityV3.IsEffectiveSet (v3 : CapabilityV3) (capability : Nat) : Bool :=
  ((1 <<< v3BitIndex capability) % 2 ^ 32) &&&
    (idx2 v3.datap (v3WordIndex capability)).effective != 0

/-- Embedding of `CapabilityV3.IsPermittedSet`: same split against `Datap[i].Permitted`. -/
def CapabilityV3.IsPermittedSet (v3 : CapabilityV3) (capability : Nat) : Bool :=
  ((1 <<< v3BitIndex capability) % 2 ^ 32) &&&
    (idx2 v3.datap (v3WordIndex capability)).permitted != 0

/-- Embedding of `CapabilityV3.IsInheritableSet`: same split against `Datap[i].Inheritable`. -/
def CapabilityV3.IsInheritableSet (v3 : CapabilityV3) (capability : Nat) : Bool :=
  ((1 <<< v3BitIndex capability) % 2 ^ 32) &&&
    (idx2 v3.datap (v3WordIndex capability)).inheritable != 0

/-- Embedding of `CapabilityV3.IsBoundingSet`: same split against `Bounds[i]`. -/
def CapabilityV3.IsBoundingSet (v3 : CapabilityV3) (capability : Nat) : Bool :=
  ((1 <<< v3BitIndex capability) % 2 ^ 32) &&& idx2 v3.bounds (v3WordIndex capability) != 0

/-- Embedding of `CapabilityV3.IsAmbientSet`: same split against `Ambient[i]`. -/
def CapabilityV3.IsAmbientSet (v3 : CapabilityV3) (capability : Nat) : Bool :=
  ((1 <<< v3BitIndex capability) % 2 ^ 32) &&& idx2 v3.ambient (v3WordIndex capability) != 0

/-! The query facade (`capabilities.go`). -/

/-- Constant `unix.LINUX_CAPABILITY_VERSION_1`. -/
def LINUX_CAPABILITY_VERSION_1 : Nat := 0x19980330
/-- Constant `unix.LINUX_CAPABILITY_VERSION_2`. -/
def LINUX_CAPABILITY_VERSION_2 : Nat := 0x20071026
/-- Constant `unix.LINUX_CAPABILITY_VERSION_3`. -/
def LINUX_CAPABILITY_VERSION_3 : Nat := 0x20080522

/-- Type `CapabilitySet` is a Go `int`-backed type with five named constants. -/
abbrev CapabilitySet := Int

/-- Constant `Effective CapabilitySet = 0`. -/
def Effective : CapabilitySet := 0
/-- Constant `Permitted CapabilitySet = 1`. -/
def Permitted : CapabilitySet := 1
/-- Constant `Inheritable CapabilitySet = 2`. -/
def Inheritable : CapabilitySet := 2
/-- Constant `Bounding CapabilitySet = 3`. -/
def Bounding : CapabilitySet := 3
/-- Constant `Ambient CapabilitySet = 4`. -/
def Ambient : CapabilitySet := 4

/-- The distinct error values the library produces (`errors.New` messages
and syscall errors, the latter carrying an errno). -/
inductive CapError where
  /-- Error "unable to probe capability version". -/
  | probeFailed
  /-- Error "invalid capability version". -/
  | invalidVersion
  /-- the error returned by `unix.Capget` itself -/
  | capgetFailed (errno : Nat)
  /-- Error "invalid capability set for capability v1". -/
  | invalidSetV1
  /-- Error "invalid capability set for capability v2 or v3". -/
  | invalidSetV23
  deriving Repr, DecidableEq

/-- The environment of a call: the outcome of `unix.Capget` for each header
pid (probe with nil data, V1 data, V2/V3 data pair), and `os.Getpid()`.
An `Except.error e` outcome is a syscall failing with errno `e`. -/
structure Kernel where
  probeResult : Except Nat Nat
  capgetV1 : Int → Except Nat CapUserData
  capgetV3 : Int → Except Nat (CapUserData × CapUserData)
  getpid : Int

/-- Struct `Capabilities`: the facade state (`v3`, `v1`, `Version`). -/
structure Capabilities where
  v3 : CapabilityV3
  v1 : CapabilityV1
  version : Int
  deriving Repr, DecidableEq

/-- Outcome of `Init`: a Go `(*Capabilities, error)` pair, or the `panic`
on an unsupported version (a fatal abort, not a returned value). -/
inductive InitResult where
  | ok (c : Capabilities)
  | err (e : CapError)
  | panicked
  deriving Repr, DecidableEq

/-- Go zero value of `Capabilities`. -/
def Capabilities.zero : Capabilities :=
  { v3 := ⟨CapUserHeader.zero, (CapUserData.zero, CapUserData.zero), (0, 0), (0, 0)⟩
    v1 := ⟨CapUserHeader.zero, CapUserData.zero⟩
    version := 0 }

/-- Embedding of `Init`: probe the kernel with a nil data buffer; the kernel fills the
header's version field.  Dispatch on the three known version constants,
recording 1, 2 or 3 and storing the probed header in the matching layout;
panic on anything else. -/
def Init (k : Kernel) : InitResult :=
  match k.probeResult with
  | .error _ => .err .probeFailed
  | .ok v =>
    let header : CapUserHeader := { version := v, pid := 0 }
    if v = LINUX_CAPABILITY_VERSION_1 then
      .ok { Capabilities.zero with
            version := 1
            v1 := { Capabilities.zero.v1 with header := header } }
    else if v = LINUX_CAPABILITY_VERSION_2 then
      .ok { Capabilities.zero with
            version := 2
            v3 := { Capabilities.zero.v3 with header := header } }
    else if v = LINUX_CAPABILITY_VERSION_3 then
      .ok { Capabilities.zero with
            version := 3
            v3 := { Capabilities.zero.v3 with header := header } }
    else
      .panicked

/-- Embedding of `Capabilities.isSetFor`: set the header's version and pid, re-issue
`unix.Capget` for that pid, store the returned data in the snapshot, and
dispatch the bit test on the requested set kind.  Returns the boolean
result, the error (`none` for Go's `nil`), and the updated receiver state
(the method mutates `*c` in Go). -/
def Capabilities.isSetFor (c : Capabilities) (k : Kernel) (pid : Int) (capability : Nat)
    (capSet : CapabilitySet) : Bool × Option CapError × Capabilities :=
  if c.version < 1 ∨ c.version > 3 then
    (false, some .invalidVersion, c)
  else if c.version = 1 then
    let c := { c with v1 := { c.v1 with
      header := { version := LINUX_CAPABILITY_VERSION_1, pid := toInt32 pid } } }
    match k.capgetV1 c.v1.header.pid with
    | .error e => (false, some (.capgetFailed e), c)
    | .ok d =>
      let c := { c with v1 := { c.v1 with data := d } }
      if capSet = Effective then (c.v1.IsEffectiveSet capability, none, c)
      else if capSet = Inheritable then (c.v1.IsInheritableSet capability, none, c)
      else if capSet = Permitted then (c.v1.IsPermittedSet capability, none, c)
      else (false, some .invalidSetV1, c)
  else
    let hv : Nat :=
      if c.version = 2 then LINUX_CAPABILITY_VERSION_2
      else if c.version = 3 then LINUX_CAPABILITY_VERSION_3
      else c.v3.header.version
    let c := { c with v3 := { c.v3 with
      header := { version := hv, pid := toInt32 pid } } }
    match k.capgetV3 c.v3.header.pid with
    | .error e => (false, some (.capgetFailed e), c)
    | .ok d =>
      let c := { c with v3 := { c.v3 with datap := d } }
      if capSet = Effective then (c.v3.IsEffectiveSet capability, none, c)
      else if capSet = Permitted then (c.v3.IsPermittedSet capability, none, c)
      else if capSet = Inheritable then (c.v3.IsInheritableSet capability, none, c)
      else if capSet = Bounding then (c.v3.IsBoundingSet capability, none, c)
      else if capSet = Ambient then (c.v3.IsAmbientSet capability, none, c)
      else (false, some .invalidSetV23, c)

/-- Embedding of `Capabilities.IsSet`: the public query.  As written in the source it
calls `c.isSetFor(os.Getpid(), capability, capSet)`, passing the calling
process's pid rather than its `pid` parameter. -/
def Capabilities.IsSet (c : Capabilities) (k : Kernel) (pid : Int) (capability : Nat)
    (capSet : CapabilitySet) : Bool × Option CapError × Capabilities :=
  c.isSetFor k k.getpid capability capSet

/-- One query step as seen by the state: the kernel's responses for that
call and the arguments passed to `isSetFor`. -/
structure Query where
  kernel : Kernel
  pid : Int
  capability : Nat
  capSet : CapabilitySet

/-- Thread the facade state through a sequence of `isSetFor` calls
(each with its own kernel responses), keeping the final state. -/
def runQueries (c : Capabilities) : List Query → Capabilities
  | [] => c
  | q :: qs => runQueries (c.isSetFor q.kernel q.pid q.capability q.capSet).2.2 qs

/-! Helper lemmas about the bit tests. -/

lemma one_shiftLeft_mod_eq {b : Nat} (hb : b < 32) : (1 <<< b) % 2 ^ 32 = 1 <<< b := by
  rw [Nat.shiftLeft_eq, one_mul]
  exact Nat.mod_eq_of_lt (Nat.pow_lt_pow_right one_lt_two hb)

lemma one_shiftLeft_mod_eq_zero {b : Nat} (hb : 32 ≤ b) : (1 <<< b) % 2 ^ 32 = 0 := by
  rw [Nat.shiftLeft_eq, one_mul]
  have h : 2 ^ b = 2 ^ 32 * 2 ^ (b - 32) := by
    rw [← pow_add]
    congr 1
    omega
  rw [h]
  exact Nat.mul_mod_right _ _

lemma shiftAnd_testBit (w b : Nat) : ((1 <<< b) &&& w != 0) = w.testBit b := by
  rw [Nat.shiftLeft_eq, one_mul, Nat.two_pow_and]
  cases h : w.testBit b
  · simp
  · simp

lemma idx2_zero {α : Type} (a : α × α) : idx2 a 0 = a.1 := rfl

lemma idx2_one {α : Type} (a : α × α) : idx2 a 1 = a.2 := if_neg one_ne_zero

/-- The V3 index split, on an arbitrary two-word array, computes the bit
test of word `n > 31 ? 1 : 0` at bit `n % 32`, for any `n ≤ 63`. -/
lemma v3_test_eq (w : Nat × Nat) (n : Nat) (hn : n ≤ 63) :
    (((1 <<< v3BitIndex n) % 2 ^ 32) &&& idx2 w (v3WordIndex n) != 0)
      = Nat.testBit (if n > 31 then w.2 else w.1) (n % 32) := by
  by_cases h : n > 31
  · have hb : n % 32 < 32 := Nat.mod_lt _ (by norm_num)
    rw [v3BitIndex, v3WordIndex, if_pos h, if_pos h, if_pos h, idx2_one,
      one_shiftLeft_mod_eq hb, shiftAnd_testBit]
  · have hb : n < 32 := by omega
    rw [v3BitIndex, v3WordIndex, if_neg h, if_neg h, if_neg h, idx2_zero,
      one_shiftLeft_mod_eq hb, shiftAnd_testBit, Nat.mod_eq_of_lt hb]

/-- The V3 index split for `n ≥ 32` (no upper bound): the bit test of
word 1 at bit `n % 32`. -/
lemma v3_test_eq_high (w : Nat × Nat) (n : Nat) (hn : 32 ≤ n) :
    (((1 <<< v3BitIndex n) % 2 ^ 32) &&& idx2 w (v3WordIndex n) != 0)
      = Nat.testBit w.2 (n % 32) := by
  have h : n > 31 := by omega
  have hb : n % 32 < 32 := Nat.mod_lt _ (by norm_num)
  rw [v3BitIndex, v3WordIndex, if_pos h, if_pos h, idx2_one,
    one_shiftLeft_mod_eq hb, shiftAnd_testBit]

lemma test_zero_word (b i : Nat) (w : Nat × Nat) (h1 : w.1 = 0) (h2 : w.2 = 0) :
    (((1 <<< b) % 2 ^ 32) &&& idx2 w i != 0) = false := by
  unfold idx2
  split <;> simp [h1, h2]

lemma idx2_map {α β : Type} (f : α → β) (a : α × α) (i : Nat) :
    f (idx2 a i) = idx2 (f a.1, f a.2) i := by
  unfold idx2
  split <;> rfl

/-! Concrete snapshots used by the witnesses. -/

/-- A V3 snapshot with one interesting bit in each word. -/
def exV3 : CapabilityV3 :=
  ⟨CapUserHeader.zero, (⟨0x80000000, 4, 0⟩, ⟨1, 0, 0x80000000⟩), (0, 0x100), (5, 0)⟩

/-- A V1 snapshot whose words are the spec's example value 0b101. -/
def exV1 : CapabilityV1 := ⟨CapUserHeader.zero, ⟨5, 5, 5⟩⟩

/-- The all-zero V3 snapshot. -/
def zeroV3 : CapabilityV3 :=
  ⟨CapUserHeader.zero, (CapUserData.zero, CapUserData.zero), (0, 0), (0, 0)⟩

/-- A V1 snapshot with every bit of every word set. -/
def onesV1 : CapabilityV1 := ⟨CapUserHeader.zero, ⟨0xffffffff, 0xffffffff, 0xffffffff⟩⟩

/-- C2: for every capability index `n ≤ 63` and every set kind, the V3
predicate returns true iff bit `n % 32` of word `n > 31 ? 1 : 0` of that
set's two-word array is set (so 32 ↦ word 1 bit 0, 63 ↦ word 1 bit 31,
31 ↦ word 0 bit 31). -/
theorem v3_bit_mapping (v3 : CapabilityV3) (n : Nat) (hn : n ≤ 63) :
    v3.IsEffectiveSet n
        = Nat.testBit (if n > 31 then v3.datap.2.effective else v3.datap.1.effective) (n % 32) ∧
    v3.IsPermittedSet n
        = Nat.testBit (if n > 31 then v3.datap.2.permitted else v3.datap.1.permitted) (n % 32) ∧
    v3.IsInheritableSet n
        = Nat.testBit (if n > 31 then v3.datap.2.inheritable else v3.datap.1.inheritable) (n % 32) ∧
    v3.IsBoundingSet n
        = Nat.testBit (if n > 31 then v3.bounds.2 else v3.bounds.1) (n % 32) ∧
    v3.IsAmbientSet n
        = Nat.testBit (if n > 31 then v3.ambient.2 else v3.ambient.1) (n % 32) := by
  refine ⟨?_, ?_, ?_, ?_, ?_⟩
  · simp only [CapabilityV3.IsEffectiveSet]
    rw [idx2_map CapUserData.effective, v3_test_eq _ n hn]
  · simp only [CapabilityV3.IsPermittedSet]
    rw [idx2_map CapUserData.permitted, v3_test_eq _ n hn]
  · simp only [CapabilityV3.IsInheritableSet]
    rw [idx2_map CapUserData.inheritable, v3_test_eq _ n hn]
  · simp only [CapabilityV3.IsBoundingSet]
    rw [v3_test_eq _ n hn]
  · simp only [CapabilityV3.IsAmbientSet]
    rw [v3_test_eq _ n hn]

/-- Witness for C2 at index 32 on a concrete snapshot. -/
theorem v3_bit_mapping_witness :
    (32 : Nat) ≤ 63 ∧
    (exV3.IsEffectiveSet 32
        = Nat.testBit (if 32 > 31 then exV3.datap.2.effective else exV3.datap.1.effective)
            (32 % 32) ∧
     exV3.IsPermittedSet 32
        = Nat.testBit (if 32 > 31 then exV3.datap.2.permitted else exV3.datap.1.permitted)
            (32 % 32) ∧
     exV3.IsInheritableSet 32
        = Nat.testBit (if 32 > 31 then exV3.datap.2.inheritable else exV3.datap.1.inheritable)
            (32 % 32) ∧
     exV3.IsBoundingSet 32
        = Nat.testBit (if 32 > 31 then exV3.bounds.2 else exV3.bounds.1) (32 % 32) ∧
     exV3.IsAmbientSet 32
        = Nat.testBit (if 32 > 31 then exV3.ambient.2 else exV3.ambient.1) (32 % 32)) :=
  ⟨by norm_num, v3_bit_mapping exV3 32 (by norm_num)⟩

/-- C3: for every capability index `n ≤ 31` and each of the three V1 set
kinds, the V1 predicate returns true iff bit `n` of the single 32-bit word
for that set kind is set. -/
theorem v1_bit_mapping (v1 : CapabilityV1) (n : Nat) (hn : n ≤ 31) :
    v1.IsEffectiveSet n = Nat.testBit v1.data.effective n ∧
    v1.IsPermittedSet n = Nat.testBit v1.data.permitted n ∧
    v1.IsInheritableSet n = Nat.testBit v1.data.inheritable n := by
  have hb : n < 32 := by omega
  refine ⟨?_, ?_, ?_⟩
  · simp only [CapabilityV1.IsEffectiveSet]
    rw [one_shiftLeft_mod_eq hb, shiftAnd_testBit]
  · simp only [CapabilityV1.IsPermittedSet]
    rw [one_shiftLeft_mod_eq hb, shiftAnd_testBit]
  · simp only [CapabilityV1.IsInheritableSet]
    rw [one_shiftLeft_mod_eq hb, shiftAnd_testBit]

/-- Witness for C3 at index 2 on the word 0b101 (a set bit). -/
theorem v1_bit_mapping_witness :
    (2 : Nat) ≤ 31 ∧
    (exV1.IsEffectiveSet 2 = Nat.testBit exV1.data.effective 2 ∧
     exV1.IsPermittedSet 2 = Nat.testBit exV1.data.permitted 2 ∧
     exV1.IsInheritableSet 2 = Nat.testBit exV1.data.inheritable 2) :=
  ⟨by norm_num, v1_bit_mapping exV1 2 (by norm_num)⟩

/-- C7: if both words of a set's two-word array are zero, the V3 predicate
for that set returns false at every index. -/
theorem v3_zero_words_unset (v3 : CapabilityV3) (n : Nat) :
    (v3.datap.1.effective = 0 → v3.datap.2.effective = 0 → v3.IsEffectiveSet n = false) ∧
    (v3.datap.1.permitted = 0 → v3.datap.2.permitted = 0 → v3.IsPermittedSet n = false) ∧
    (v3.datap.1.inheritable = 0 → v3.datap.2.inheritable = 0 → v3.IsInheritableSet n = false) ∧
    (v3.bounds.1 = 0 → v3.bounds.2 = 0 → v3.IsBoundingSet n = false) ∧
    (v3.ambient.1 = 0 → v3.ambient.2 = 0 → v3.IsAmbientSet n = false) := by
  refine ⟨fun h1 h2 => ?_, fun h1 h2 => ?_, fun h1 h2 => ?_, fun h1 h2 => ?_, fun h1 h2 => ?_⟩
  · simp only [CapabilityV3.IsEffectiveSet]
    rw [idx2_map CapUserData.effective]
    exact test_zero_word _ _ _ h1 h2
  · simp only [CapabilityV3.IsPermittedSet]
    rw [idx2_map CapUserData.permitted]
    exact test_zero_word _ _ _ h1 h2
  · simp only [CapabilityV3.IsInheritableSet]
    rw [idx2_map CapUserData.inheritable]
    exact test_zero_word _ _ _ h1 h2
  · exact test_zero_word _ _ _ h1 h2
  · exact test_zero_word _ _ _ h1 h2

/-- Witness for C7 on the all-zero snapshot at index 7. -/
theorem v3_zero_words_unset_witness :
    zeroV3.IsEffectiveSet 7 = false ∧ zeroV3.IsPermittedSet 7 = false ∧
    zeroV3.IsInheritableSet 7 = false ∧ zeroV3.IsBoundingSet 7 = false ∧
    zeroV3.IsAmbientSet 7 = false := by
  obtain ⟨h1, h2, h3, h4, h5⟩ := v3_zero_words_unset zeroV3 7
  exact ⟨h1 rfl rfl, h2 rfl rfl, h3 rfl rfl, h4 rfl rfl, h5 rfl rfl⟩

/-- C9: for every index `n ≥ 32`, every V1 predicate returns false
silently, because the 32-bit shift evaluates to 0. -/
theorem v1_high_index_silent_false (v1 : CapabilityV1) (n : Nat) (hn : 32 ≤ n) :
    v1.IsEffectiveSet n = false ∧ v1.IsPermittedSet n = false ∧
    v1.IsInheritableSet n = false := by
  refine ⟨?_, ?_, ?_⟩ <;>
  · simp only [CapabilityV1.IsEffectiveSet, CapabilityV1.IsPermittedSet,
      CapabilityV1.IsInheritableSet]
    rw [one_shiftLeft_mod_eq_zero hn]
    simp

/-- Witness for C9 at index 32 on the all-ones snapshot. -/
theorem v1_high_index_silent_false_witness :
    (32 : Nat) ≤ 32 ∧
    (onesV1.IsEffectiveSet 32 = false ∧ onesV1.IsPermittedSet 32 = false ∧
     onesV1.IsInheritableSet 32 = false) :=
  ⟨le_refl 32, v1_high_index_silent_false onesV1 32 (le_refl 32)⟩

/-- C10: for every index `n ≥ 32` each V3 predicate tests bit `n % 32` of
word 1, and hence for every `n ≥ 64` it returns the same value as for
index `32 + n % 32` (index 64 is indistinguishable from index 32). -/
theorem v3_high_index_aliasing (v3 : CapabilityV3) (n : Nat) :
    (32 ≤ n →
      v3.IsEffectiveSet n = Nat.testBit v3.datap.2.effective (n % 32) ∧
      v3.IsPermittedSet n = Nat.testBit v3.datap.2.permitted (n % 32) ∧
      v3.IsInheritableSet n = Nat.testBit v3.datap.2.inheritable (n % 32) ∧
      v3.IsBoundingSet n = Nat.testBit v3.bounds.2 (n % 32) ∧
      v3.IsAmbientSet n = Nat.testBit v3.ambient.2 (n % 32)) ∧
    (64 ≤ n →
      v3.IsEffectiveSet n = v3.IsEffectiveSet (32 + n % 32) ∧
      v3.IsPermittedSet n = v3.IsPermittedSet (32 + n % 32) ∧
      v3.IsInheritableSet n = v3.IsInheritableSet (32 + n % 32) ∧
      v3.IsBoundingSet n = v3.IsBoundingSet (32 + n % 32) ∧
      v3.IsAmbientSet n = v3.IsAmbientSet (32 + n % 32)) := by
  have first : ∀ m : Nat, 32 ≤ m →
      v3.IsEffectiveSet m = Nat.testBit v3.datap.2.effective (m % 32) ∧
      v3.IsPermittedSet m = Nat.testBit v3.datap.2.permitted (m % 32) ∧
      v3.IsInheritableSet m = Nat.testBit v3.datap.2.inheritable (m % 32) ∧
      v3.IsBoundingSet m = Nat.testBit v3.bounds.2 (m % 32) ∧
      v3.IsAmbientSet m = Nat.testBit v3.ambient.2 (m % 32) := by
    intro m hm
    refine ⟨?_, ?_, ?_, ?_, ?_⟩
    · simp only [CapabilityV3.IsEffectiveSet]
      rw [idx2_map CapUserData.effective, v3_test_eq_high _ m hm]
    · simp only [CapabilityV3.IsPermittedSet]
      rw [idx2_map CapUserData.permitted, v3_test_eq_high _ m hm]
    · simp only [CapabilityV3.IsInheritableSet]
      rw [idx2_map CapUserData.inheritable, v3_test_eq_high _ m hm]
    · simp only [CapabilityV3.IsBoundingSet]
      rw [v3_test_eq_high _ m hm]
    · simp only [CapabilityV3.IsAmbientSet]
      rw [v3_test_eq_high _ m hm]
  refine ⟨first n, fun h64 => ?_⟩
  have h32 : 32 ≤ n := by omega
  have h32b : (32 : Nat) ≤ 32 + n % 32 := by omega
  have hmod : (32 + n % 32) % 32 = n % 32 := by omega
  obtain ⟨e1, p1, i1, b1, a1⟩ := first n h32
  obtain ⟨e2, p2, i2, b2, a2⟩ := first (32 + n % 32) h32b
  rw [hmod] at e2 p2 i2 b2 a2
  exact ⟨e1.trans e2.symm, p1.trans p2.symm, i1.trans i2.symm, b1.trans b2.symm,
    a1.trans a2.symm⟩

/-- Witness for C10 at index 64: indistinguishable from index 32. -/
theorem v3_high_index_aliasing_witness :
    exV3.IsEffectiveSet 64 = exV3.IsEffectiveSet (32 + 64 % 32) ∧
    exV3.IsPermittedSet 64 = exV3.IsPermittedSet (32 + 64 % 32) ∧
    exV3.IsInheritableSet 64 = exV3.IsInheritableSet (32 + 64 % 32) ∧
    exV3.IsBoundingSet 64 = exV3.IsBoundingSet (32 + 64 % 32) ∧
    exV3.IsAmbientSet 64 = exV3.IsAmbientSet (32 + 64 % 32) :=
  (v3_high_index_aliasing exV3 64).2 (by norm_num)

/-! The facade claims. -/

lemma isSetFor_version_eq (c : Capabilities) (k : Kernel) (pid : Int) (n : Nat)
    (s : CapabilitySet) : ((c.isSetFor k pid n s).2.2).version = c.version := by
  simp only [Capabilities.isSetFor]
  repeat' split
  all_goals rfl

lemma runQueries_version (qs : List Query) :
    ∀ c : Capabilities, (runQueries c qs).version = c.version := by
  induction qs with
  | nil => intro c; rfl
  | cons q qs ih =>
    intro c
    rw [runQueries, ih, isSetFor_version_eq]

/-- A kernel whose probe reports the V3 constant, `os.Getpid() = 100`, and
whose V3 data gives process 42 — and only process 42 — capability 0 in its
effective set. -/
def kSelf100 : Kernel :=
  { probeResult := Except.ok LINUX_CAPABILITY_VERSION_3
    capgetV1 := fun _ => Except.error 22
    capgetV3 := fun p =>
      if p = 42 then Except.ok (⟨1, 0, 0⟩, CapUserData.zero)
      else Except.ok (CapUserData.zero, CapUserData.zero)
    getpid := 100 }

/-- The instance `Init kSelf100` produces (version 3). -/
def instV3 : Capabilities :=
  { Capabilities.zero with
    version := 3
    v3 := { Capabilities.zero.v3 with header := ⟨LINUX_CAPABILITY_VERSION_3, 0⟩ } }

/-- A version-1 instance (as produced by a V1 probe). -/
def instV1 : Capabilities :=
  { Capabilities.zero with
    version := 1
    v1 := { Capabilities.zero.v1 with header := ⟨LINUX_CAPABILITY_VERSION_1, 0⟩ } }

/-- A kernel that answers V1 queries with the word 0b101 for every pid. -/
def kV1 : Kernel :=
  { probeResult := Except.ok LINUX_CAPABILITY_VERSION_1
    capgetV1 := fun _ => Except.ok ⟨5, 5, 5⟩
    capgetV3 := fun _ => Except.error 22
    getpid := 7 }

/-- A kernel whose probe reports the unknown version value 0. -/
def kBad : Kernel :=
  { probeResult := Except.ok 0
    capgetV1 := fun _ => Except.error 1
    capgetV3 := fun _ => Except.error 1
    getpid := 7 }

/-- C1 (refuting the claim on the code as written): `IsSet` passes
`os.Getpid()` — here 100 — to `isSetFor` instead of its `pid` parameter.
With target process 42 holding capability 0 in its effective set and the
calling process 100 not holding it, `IsSet(42, 0, Effective)` issues the
syscall with header pid 100 and returns false with nil error, whereas
`isSetFor(42, 0, Effective)` issues it with header pid 42 and returns
true. -/
theorem IsSet_ignores_target_pid :
    (instV3.IsSet kSelf100 42 0 Effective).1 = false ∧
    (instV3.IsSet kSelf100 42 0 Effective).2.1 = none ∧
    ((instV3.IsSet kSelf100 42 0 Effective).2.2).v3.header.pid = 100 ∧
    (instV3.isSetFor kSelf100 42 0 Effective).1 = true ∧
    ((instV3.isSetFor kSelf100 42 0 Effective).2.2).v3.header.pid = 42 := by
  decide

/-- C4: on a version-1 instance, a Bounding or Ambient query returns false
with a non-nil error, and — whenever the re-issued syscall itself succeeds
— that error is the "invalid capability set for capability v1" error. -/
theorem v1_bounding_ambient_rejected (k : Kernel) (c : Capabilities) (pid : Int) (n : Nat)
    (s : CapabilitySet) (hv : c.version = 1) (hs : s = Bounding ∨ s = Ambient) :
    (c.isSetFor k pid n s).1 = false ∧
    (c.isSetFor k pid n s).2.1 ≠ none ∧
    (∀ d, k.capgetV1 (toInt32 pid) = Except.ok d →
      (c.isSetFor k pid n s).2.1 = some CapError.invalidSetV1) := by
  have hsE : ¬(s = Effective) := by rcases hs with h | h <;> subst h <;> decide
  have hsI : ¬(s = Inheritable) := by rcases hs with h | h <;> subst h <;> decide
  have hsP : ¬(s = Permitted) := by rcases hs with h | h <;> subst h <;> decide
  cases hcg : k.capgetV1 (toInt32 pid) with
  | error e =>
    norm_num [Capabilities.isSetFor, hv, hcg]
    exact ⟨fun h => Option.noConfusion h, fun d hd => Except.noConfusion hd⟩
  | ok d =>
    norm_num [Capabilities.isSetFor, hv, hcg, hsE, hsI, hsP]
    exact fun h => Option.noConfusion h

/-- Witness for C4: Bounding on a concrete version-1 instance. -/
theorem v1_bounding_ambient_rejected_witness :
    instV1.version = 1 ∧ (Bounding = Bounding ∨ Bounding = Ambient) ∧
    ((instV1.isSetFor kV1 0 3 Bounding).1 = false ∧
     (instV1.isSetFor kV1 0 3 Bounding).2.1 ≠ none ∧
     (∀ d, kV1.capgetV1 (toInt32 0) = Except.ok d →
       (instV1.isSetFor kV1 0 3 Bounding).2.1 = some CapError.invalidSetV1)) :=
  ⟨rfl, Or.inl rfl,
    v1_bounding_ambient_rejected kV1 instV1 0 3 Bounding rfl (Or.inl rfl)⟩

/-- C5: when the probe reports a value other than the three known version
constants, `Init` aborts (the source panics) and returns no instance; for
each known constant it succeeds with the matching version (1, 2 or 3)
recorded. -/
theorem init_unsupported_version (k : Kernel) (v : Nat) (h : k.probeResult = Except.ok v) :
    (v ≠ LINUX_CAPABILITY_VERSION_1 → v ≠ LINUX_CAPABILITY_VERSION_2 →
     v ≠ LINUX_CAPABILITY_VERSION_3 → Init k = InitResult.panicked) ∧
    (v = LINUX_CAPABILITY_VERSION_1 → ∃ c, Init k = InitResult.ok c ∧ c.version = 1) ∧
    (v = LINUX_CAPABILITY_VERSION_2 → ∃ c, Init k = InitResult.ok c ∧ c.version = 2) ∧
    (v = LINUX_CAPABILITY_VERSION_3 → ∃ c, Init k = InitResult.ok c ∧ c.version = 3) := by
  refine ⟨fun h1 h2 h3 => ?_, fun h1 => ?_, fun h1 => ?_, fun h1 => ?_⟩ <;>
    simp only [Init, h]
  · rw [if_neg h1, if_neg h2, if_neg h3]
  · rw [if_pos h1]
    exact ⟨_, rfl, rfl⟩
  · rw [if_neg (by rw [h1]; decide), if_pos h1]
    exact ⟨_, rfl, rfl⟩
  · rw [if_neg (by rw [h1]; decide), if_neg (by rw [h1]; decide), if_pos h1]
    exact ⟨_, rfl, rfl⟩

/-- Witness for C5: a probe reporting 0 makes `Init` abort. -/
theorem init_unsupported_version_witness :
    kBad.probeResult = Except.ok 0 ∧ Init kBad = InitResult.panicked :=
  ⟨rfl, (init_unsupported_version kBad 0 rfl).1 (by decide) (by decide) (by decide)⟩

/-- C6: for every instance, every input and every syscall outcome, a query
never returns true together with a non-nil error: the result is false or
the error is nil (for both `isSetFor` and the public `IsSet`). -/
theorem query_error_implies_false (k : Kernel) (c : Capabilities) (pid : Int) (n : Nat)
    (s : CapabilitySet) :
    ((c.isSetFor k pid n s).1 = false ∨ (c.isSetFor k pid n s).2.1 = none) ∧
    ((c.IsSet k pid n s).1 = false ∨ (c.IsSet k pid n s).2.1 = none) := by
  have main : ∀ p : Int,
      (c.isSetFor k p n s).1 = false ∨ (c.isSetFor k p n s).2.1 = none := by
    intro p
    simp only [Capabilities.isSetFor]
    repeat' split
    all_goals simp
  exact ⟨main pid, main k.getpid⟩

/-- C8: a successfully initialized instance has version 1, 2 or 3, and no
sequence of queries (each with arbitrary kernel responses, succeeding or
failing) ever changes it. -/
theorem init_version_immutable (k : Kernel) (c : Capabilities)
    (h : Init k = InitResult.ok c) :
    (c.version = 1 ∨ c.version = 2 ∨ c.version = 3) ∧
    ∀ qs : List Query, (runQueries c qs).version = c.version := by
  refine ⟨?_, fun qs => runQueries_version qs c⟩
  simp only [Init] at h
  cases hp : k.probeResult with
  | error e =>
    rw [hp] at h
    cases h
  | ok v =>
    rw [hp] at h
    simp only [] at h
    split at h
    · cases h
      exact Or.inl rfl
    · split at h
      · cases h
        exact Or.inr (Or.inl rfl)
      · split at h
        · cases h
          exact Or.inr (Or.inr rfl)
        · cases h

/-- Witness for C8: the concrete V3 kernel, with the universally
quantified query sequences kept. -/
theorem init_version_immutable_witness :
    Init kSelf100 = InitResult.ok instV3 ∧
    ((instV3.version = 1 ∨ instV3.version = 2 ∨ instV3.version = 3) ∧
     ∀ qs : List Query, (runQueries instV3 qs).version = instV3.version) :=
  ⟨by decide, init_version_immutable kSelf100 instV3 (by decide)⟩

end Caps
